import Mathlib

/- Verification of the generation proxy in app.py: the secret redactor, the
provider selector, the two backend adapters, the response normalizer, and the
dual-mode (buffered JSON / SSE) delivery of the generate endpoint. Python
strings are modeled as lists of characters (ASCII scope), Python optional
values as Option, environment variables as explicit Option parameters, and
the single outbound HTTP call as an explicit NetResp argument. -/

namespace CodeGen

/- Python strings as character lists. -/
abbrev Str := List Char

/- Character-list view of a Lean string literal. -/
def str (s : String) : Str := s.toList

/- Whether the first list is an initial segment of the second. -/
def beginsWith : Str → Str → Bool
  | [], _ => true
  | _ :: _, [] => false
  | a :: as, b :: bs => if a = b then beginsWith as bs else false

/- Python substring test (the `in` operator): needle occurs somewhere in hay. -/
def isSub (needle : Str) : Str → Bool
  | [] => needle.isEmpty
  | c :: t => beginsWith needle (c :: t) || isSub needle t

/- The fixed mask token "***" used by redact in app.py line 38. -/
def mask : Str := ['*', '*', '*']

/- One fuel-indexed pass of Python str.replace with a non-empty pattern
(o :: os): scan left to right, replacing non-overlapping matches. The fuel
bounds the number of scanned characters; callers pass the length of the
scanned list, which is always sufficient. -/
def replaceGo (o : Char) (os new : Str) : Nat → Str → Str
  | 0, s => s
  | _ + 1, [] => []
  | fuel + 1, c :: t =>
    if beginsWith (o :: os) (c :: t) then new ++ replaceGo o os new fuel (t.drop os.length)
    else c :: replaceGo o os new fuel t

/- Python str.replace with an empty pattern inserts the replacement before
every character and once more at the end; this is the interleaving part. -/
def maskInter (new : Str) : Str → Str
  | [] => []
  | c :: t => c :: (new ++ maskInter new t)

/- Python s.replace(old, new), including the empty-pattern behavior. -/
def pyReplace (s old new : Str) : Str :=
  match old with
  | [] => new ++ maskInter new s
  | o :: os => replaceGo o os new s.length s

/- app.py redact (lines 37-38):
msg.replace(os.getenv("OPENAI_API_KEY", "") or "", "***").
envKey models the OPENAI_API_KEY environment variable (none when unset). -/
def redact (envKey : Option Str) (msg : Str) : Str :=
  pyReplace msg (envKey.getD []) mask

/- ASCII case folding of Python str.lower, one character. -/
def lowerChar (c : Char) : Char :=
  if c = 'A' then 'a' else if c = 'B' then 'b' else if c = 'C' then 'c'
  else if c = 'D' then 'd' else if c = 'E' then 'e' else if c = 'F' then 'f'
  else if c = 'G' then 'g' else if c = 'H' then 'h' else if c = 'I' then 'i'
  else if c = 'J' then 'j' else if c = 'K' then 'k' else if c = 'L' then 'l'
  else if c = 'M' then 'm' else if c = 'N' then 'n' else if c = 'O' then 'o'
  else if c = 'P' then 'p' else if c = 'Q' then 'q' else if c = 'R' then 'r'
  else if c = 'S' then 's' else if c = 'T' then 't' else if c = 'U' then 'u'
  else if c = 'V' then 'v' else if c = 'W' then 'w' else if c = 'X' then 'x'
  else if c = 'Y' then 'y' else if c = 'Z' then 'z' else c

/- Python str.lower over the ASCII range. -/
def lower (s : Str) : Str := s.map lowerChar

/- The whitespace characters stripped by Python str.strip (ASCII range). -/
def isSpaceB (c : Char) : Bool :=
  c == ' ' || c == '\t' || c == '\n' || c == '\r' || c == '\x0b' || c == '\x0c'

/- Python str.strip: drop whitespace from both ends. -/
def strip (s : Str) : Str :=
  ((s.dropWhile isSpaceB).reverse.dropWhile isSpaceB).reverse

/- Python `a or b` for a string a: b when a is empty, else a. -/
def pyOrS (a b : Str) : Str := if a.isEmpty then b else a

/- Python `a or b` where a is an optional string and b a string. -/
def pyOrOS (a : Option Str) (b : Str) : Str := pyOrS (a.getD []) b

/- Python `a or b` where both are optional strings. -/
def pyOrOO (a b : Option Str) : Option Str :=
  match a with
  | none => b
  | some s => if s.isEmpty then b else some s

/- Python truthiness of an optional string. -/
def truthy : Option Str → Bool
  | none => false
  | some s => !s.isEmpty

/- JSON values, as returned by Response.json(). -/
inductive Json where
  | null
  | bool (b : Bool)
  | num (n : Int)
  | str (s : Str)
  | arr (elems : List Json)
  | obj (fields : List (Str × Json))

/- Python d.get(k, default): defaulted lookup on a dict, AttributeError on
any non-dict value. -/
def jGet (j : Json) (k : Str) (d : Json) : Except Str Json :=
  match j with
  | .obj fields => .ok ((List.lookup k fields).getD d)
  | _ => .error (str "AttributeError: get")

/- Python x[0]: first element of a list (IndexError when empty), first
character of a string, failure on everything else. Error strings model
str(e) of the raised exception: exact for the IndexError cases, abstracted
for the type-dependent AttributeError/KeyError/TypeError texts. -/
def jIndex0 (j : Json) : Except Str Json :=
  match j with
  | .arr [] => .error (str "list index out of range")
  | .arr (x :: _) => .ok x
  | .str [] => .error (str "string index out of range")
  | .str (c :: _) => .ok (.str [c])
  | .obj _ => .error (str "KeyError: 0")
  | _ => .error (str "TypeError: not subscriptable")

/- Python falsiness of a JSON value. -/
def jFalsy : Json → Bool
  | .null => true
  | .bool b => !b
  | .num n => n == 0
  | .str s => s.isEmpty
  | .arr xs => xs.isEmpty
  | .obj fs => fs.isEmpty

/- Python `v or ""`. -/
def pyOrEmpty (j : Json) : Json := if jFalsy j then .str [] else j

/- Calling a str method (here .lower) on a value: only strings succeed. -/
def asStr (j : Json) : Except Str Str :=
  match j with
  | .str s => .ok s
  | _ => .error (str "AttributeError: lower")

/- app.py line 99: data.get("choices", [{}])[0].get("message", {}).get("content", ""). -/
def extractContent (data : Json) : Except Str Json :=
  match jGet data (str "choices") (.arr [.obj []]) with
  | .error e => .error e
  | .ok choices =>
    match jIndex0 choices with
    | .error e => .error e
    | .ok first =>
      match jGet first (str "message") (.obj []) with
      | .error e => .error e
      | .ok message => jGet message (str "content") (.str [])

/- The normalized generation result dict {html, content, messages}. -/
structure GenResult where
  html : Str
  content : Str
  messages : Option Str

/- The fixed HTML shell wrapped around non-HTML output (lines 65 and 100). -/
def htmlShellPre : Str := str "<!doctype html><html><body><pre>"

def htmlShellPost : Str := str "</pre></body></html>"

/- The normalization applied identically in both adapters (lines 64-66 and
99-101): keep text verbatim when it already contains the "<html" root marker
case-insensitively, else wrap it in the minimal shell; fixed content text;
messages always None. -/
def normalize (text : Str) : GenResult :=
  ⟨if isSub (str "<html") (lower text) then text else htmlShellPre ++ text ++ htmlShellPost,
   str "Preview updated.", none⟩

/- The outcome of the single outbound HTTP call: status code, response text
and parsed JSON body. -/
structure NetResp where
  status : Nat
  text : Str
  body : Json

/- app.py ollama_adapter (lines 41-66). The outbound request construction
(url, payload, timeout) carries no claim and is not modeled; the response is
the NetResp argument. data.get("response", "") has no `or ""` guard, so a
non-string value fails at text.lower(). -/
def ollama_adapter (prompt : Str) (model : Option Str) (base_url : Option Str)
    (net : NetResp) : Except Str GenResult :=
  if net.status ≠ 200 then .error (str "Ollama error: " ++ List.take 200 net.text)
  else
    match jGet net.body (str "response") (.str []) with
    | .error e => .error e
    | .ok v =>
      match asStr v with
      | .error e => .error e
      | .ok t => .ok (normalize t)

/- app.py openai_adapter (lines 69-101). The Bool records whether the
network call was made: a missing credential fails before any call. -/
def openai_adapter (envKey : Option Str) (prompt : Str) (model : Option Str)
    (api_key : Option Str) (net : NetResp) : Bool × Except Str GenResult :=
  let key := pyOrOO api_key envKey
  if truthy key = false then (false, .error (str "Missing OpenAI API key"))
  else
    (true,
      if net.status ≠ 200 then .error (str "OpenAI error: " ++ List.take 200 net.text)
      else
        match extractContent net.body with
        | .error e => .error e
        | .ok v =>
          match asStr (pyOrEmpty v) with
          | .error e => .error e
          | .ok t => .ok (normalize t))

/- app.py pick_provider (lines 104-106):
pv = (req_provider or env("PROVIDER", "ollama")).lower().strip(). -/
def pick_provider (envProvider : Option Str) (req : Option Str) : Str :=
  let pv := strip (lower (pyOrOS req (envProvider.getD (str "ollama"))))
  if pv = str "openai" then str "openai" else str "ollama"

/- app.py want_sse (lines 109-111): "text/event-stream" in accept.lower(). -/
def want_sse (accept : Option Str) : Bool :=
  isSub (str "text/event-stream") (lower (accept.getD []))

/- Payloads of the SSE events emitted by sse_stream. -/
inductive SsePayload where
  | status
  | done (html content : Str)
  | failure (message : Str)

/- One SSE event: name plus payload (framing bytes are not modeled). -/
structure SseEvent where
  name : Str
  payload : SsePayload

/- Process configuration read from the environment. -/
structure Config where
  envProvider : Option Str
  envKey : Option Str

/- Request body of POST /api/generate. -/
structure GenerateBody where
  prompt : Str
  provider : Option Str
  model : Option Str

/- The except-branch of _do_call (lines 156-159): re-raise with the message
redacted and truncated to 200 characters. -/
def wrapErr (envKey : Option Str) : Except Str GenResult → Except Str GenResult
  | .ok v => .ok v
  | .error e => .error (List.take 200 (redact envKey e))

/- app.py _do_call (lines 151-159): dispatch on provider, wrap failures.
The Bool records whether a network call was made. -/
def do_call (cfg : Config) (provider prompt : Str) (model xbase xkey : Option Str)
    (net : NetResp) : Bool × Except Str GenResult :=
  let r :=
    if provider = str "openai" then openai_adapter cfg.envKey prompt model xkey net
    else (true, ollama_adapter prompt model xbase net)
  (r.1, wrapErr cfg.envKey r.2)

/- app.py sse_stream (lines 162-178): one status chunk, then one terminal
done or error event depending on the _do_call outcome. -/
def sse_stream (res : Except Str GenResult) : List SseEvent :=
  ⟨str "chunk", .status⟩ ::
    (match res with
     | .ok r => [⟨str "done", .done (pyOrS r.html []) (pyOrS r.content (str "Preview updated."))⟩]
     | .error e => [⟨str "error", .failure e⟩])

/- The terminal (second) event of sse_stream for a given call outcome. -/
def terminalEvent (res : Except Str GenResult) : SseEvent :=
  match res with
  | .ok r => ⟨str "done", .done (pyOrS r.html []) (pyOrS r.content (str "Preview updated."))⟩
  | .error e => ⟨str "error", .failure e⟩

/- The three response shapes generate can produce. -/
inductive GenResponse where
  | jsonOk (status : Nat) (result : GenResult)
  | jsonError (status : Nat) (message : Str)
  | stream (events : List SseEvent)

def isStream : GenResponse → Bool
  | .stream _ => true
  | _ => false

/- Observable outcome of one request: the response plus whether the adapter
ran and whether a network call was made. -/
structure Outcome where
  resp : GenResponse
  adapterInvoked : Bool
  networkCalled : Bool

/- (body.model or "").strip() or None (line 149). -/
def pyModel (m : Option Str) : Option Str :=
  let s := strip (m.getD [])
  if s.isEmpty then none else some s

/- app.py generate (lines 129-186): validate the prompt, pick the provider,
run _do_call, and deliver either an SSE stream or a buffered JSON response. -/
def generate (cfg : Config) (accept : Option Str) (body : GenerateBody)
    (xbase xkey : Option Str) (net : NetResp) : Outcome :=
  let prompt := strip body.prompt
  if prompt.isEmpty then ⟨.jsonError 400 (str "Missing prompt"), false, false⟩
  else
    let provider := pick_provider cfg.envProvider body.provider
    let call := do_call cfg provider prompt (pyModel body.model) xbase xkey net
    if want_sse accept then ⟨.stream (sse_stream call.2), true, call.1⟩
    else
      match call.2 with
      | .ok r => ⟨.jsonOk 200 r, true, call.1⟩
      | .error m => ⟨.jsonError 500 m, true, call.1⟩

/- The error messages of a response that surface an adapter failure: the 500
buffered error body and SSE error events (the 400 validation message is not
an adapter failure). -/
def surfacedAdapterErrors (o : Outcome) : List Str :=
  match o.resp with
  | .jsonOk _ _ => []
  | .jsonError s m => if s = 500 then [m] else []
  | .stream evs =>
    evs.filterMap (fun e => match e.payload with | .failure m => some m | _ => none)

/- ------------------------------------------------------------------ -/
/- Lemmas about the substring test. -/

lemma beginsWith_nil (l : Str) : beginsWith [] l = true := by
  cases l <;> rfl

lemma beginsWith_append (k l l2 : Str) (h : beginsWith k l = true) :
    beginsWith k (l ++ l2) = true := by
  induction k generalizing l with
  | nil => simp [beginsWith_nil]
  | cons a as ih =>
    cases l with
    | nil => simp [beginsWith] at h
    | cons b bs =>
      simp only [List.cons_append, beginsWith] at h ⊢
      by_cases hab : a = b
      · simpa [hab] using ih bs (by simpa [hab] using h)
      · simp [hab] at h

lemma isSub_nil_needle (l : Str) : isSub [] l = true := by
  cases l with
  | nil => rfl
  | cons c t => simp [isSub, beginsWith_nil]

lemma isSub_append_left (k l1 l2 : Str) (h : isSub k l1 = true) :
    isSub k (l1 ++ l2) = true := by
  induction l1 with
  | nil =>
    cases k with
    | nil => simpa using isSub_nil_needle l2
    | cons a as => simp [isSub] at h
  | cons c t ih =>
    simp only [isSub] at h
    rw [Bool.or_eq_true] at h
    rcases h with h | h
    · have h2 := beginsWith_append k (c :: t) l2 h
      simp only [List.cons_append] at h2
      simp [isSub, h2]
    · simp [isSub, ih h]

lemma isSub_take (k l : Str) (n : Nat) (h : isSub k (List.take n l) = true) :
    isSub k l = true := by
  have h2 := isSub_append_left k (List.take n l) (List.drop n l) h
  simpa [List.take_append_drop] using h2

lemma isSub_ne_nil (k l : Str) (hk : k ≠ []) (h : isSub k l = true) : l ≠ [] := by
  intro hl
  subst hl
  cases k with
  | nil => exact hk rfl
  | cons a as => simp [isSub] at h

/- Appending a block disjoint from the needle in front cannot create an
occurrence. -/
lemma isSub_append_disjoint (o : Char) (os new z : Str)
    (hd : ∀ c ∈ new, c ∉ (o :: os)) :
    isSub (o :: os) (new ++ z) = isSub (o :: os) z := by
  induction new with
  | nil => rfl
  | cons n ns ih =>
    have hno : o ≠ n := by
      intro h
      exact hd n (List.mem_cons_self n ns) (by rw [← h]; exact List.mem_cons_self o os)
    have h1 : beginsWith (o :: os) (n :: (ns ++ z)) = false := by
      simp [beginsWith, hno]
    have h2 := ih (fun c hc => hd c (List.mem_cons_of_mem n hc))
    simp [isSub, h1, h2]

/- ------------------------------------------------------------------ -/
/- The replacement scan cannot leave an occurrence of the pattern when the
replacement block is non-empty and disjoint from the pattern. -/

lemma beginsWith_replaceGo (o : Char) (os new : Str) (hnew : new ≠ []) :
    ∀ (fuel : Nat) (s k2 : Str), k2 ≠ [] → (∀ c ∈ k2, c ∉ new) →
      beginsWith k2 s = false → beginsWith k2 (replaceGo o os new fuel s) = false := by
  intro fuel
  induction fuel with
  | zero =>
    intro s k2 _ _ h
    simpa [replaceGo] using h
  | succ f ih =>
    intro s k2 hk2 hd h
    cases s with
    | nil =>
      cases k2 with
      | nil => exact absurd rfl hk2
      | cons a as => simp [replaceGo, beginsWith]
    | cons c t =>
      simp only [replaceGo]
      by_cases hm : beginsWith (o :: os) (c :: t) = true
      · rw [if_pos hm]
        cases k2 with
        | nil => exact absurd rfl hk2
        | cons a as =>
          cases new with
          | nil => exact absurd rfl hnew
          | cons n ns =>
            have han : a ≠ n := by
              intro hh
              exact hd a (List.mem_cons_self a as) (by rw [hh]; exact List.mem_cons_self n ns)
            simp [beginsWith, han]
      · rw [if_neg hm]
        cases k2 with
        | nil => exact absurd rfl hk2
        | cons a as =>
          by_cases hac : a = c
          · subst hac
            have h2 : beginsWith as t = false := by simpa [beginsWith] using h
            have has : as ≠ [] := by
              intro hh
              subst hh
              simp [beginsWith_nil] at h2
            have hd2 : ∀ c2 ∈ as, c2 ∉ new := fun c2 hc2 => hd c2 (List.mem_cons_of_mem a hc2)
            have h3 := ih t as has hd2 h2
            simp [beginsWith, h3]
          · simp [beginsWith, hac]

lemma isSub_replaceGo (o : Char) (os new : Str) (hnew : new ≠ [])
    (hd : ∀ c ∈ new, c ∉ (o :: os)) :
    ∀ (fuel : Nat) (s : Str), s.length ≤ fuel →
      isSub (o :: os) (replaceGo o os new fuel s) = false := by
  intro fuel
  induction fuel with
  | zero =>
    intro s hs
    have hsnil : s = [] := List.eq_nil_of_length_eq_zero (Nat.le_zero.mp hs)
    subst hsnil
    simp [replaceGo, isSub]
  | succ f ih =>
    intro s hs
    cases s with
    | nil => simp [replaceGo, isSub]
    | cons c t =>
      have ht : t.length ≤ f := by
        simp only [List.length_cons] at hs
        omega
      simp only [replaceGo]
      by_cases hm : beginsWith (o :: os) (c :: t) = true
      · rw [if_pos hm]
        rw [isSub_append_disjoint o os new _ hd]
        exact ih (t.drop os.length) (by simp [List.length_drop]; omega)
      · rw [if_neg hm]
        have hms : beginsWith (o :: os) (c :: t) = false := by
          simpa using hm
        simp only [isSub]
        rw [Bool.or_eq_false_iff]
        constructor
        · by_cases hoc : o = c
          · subst hoc
            have h2 : beginsWith os t = false := by simpa [beginsWith] using hms
            have hos : os ≠ [] := by
              intro hh
              subst hh
              simp [beginsWith_nil] at h2
            have hd2 : ∀ c2 ∈ os, c2 ∉ new := by
              intro c2 hc2 hc2new
              exact hd c2 hc2new (List.mem_cons_of_mem o hc2)
            have h3 := beginsWith_replaceGo o os new hnew f t os hos hd2 h2
            simp [beginsWith, h3]
          · simp [beginsWith, hoc]
        · exact ih t ht

/- ------------------------------------------------------------------ -/
/- Consequences for redact. -/

lemma redact_no_occur (key msg : Str) (h1 : key ≠ []) (h2 : '*' ∉ key) :
    isSub key (redact (some key) msg) = false := by
  cases key with
  | nil => exact absurd rfl h1
  | cons k ks =>
    have hd : ∀ c ∈ mask, c ∉ (k :: ks) := by
      intro c hc
      have hcs : c = '*' := by
        simp [mask] at hc
        exact hc
      rw [hcs]
      exact h2
    show isSub (k :: ks) (replaceGo k ks mask msg.length msg) = false
    exact isSub_replaceGo k ks mask (by simp [mask]) hd msg.length msg le_rfl

lemma take_redact_no_occur (key raw : Str) (h1 : key ≠ []) (h2 : '*' ∉ key) :
    isSub key (List.take 200 (redact (some key) raw)) = false := by
  cases hx : isSub key (List.take 200 (redact (some key) raw)) with
  | false => rfl
  | true =>
    have h3 := isSub_take key (redact (some key) raw) 200 hx
    rw [redact_no_occur key raw h1 h2] at h3
    simp at h3

lemma maskInter_mask_length (s : Str) : (maskInter mask s).length = 4 * s.length := by
  induction s with
  | nil => rfl
  | cons c t ih =>
    simp only [maskInter, List.length_cons, List.length_append, ih]
    have hm : mask.length = 3 := rfl
    omega

lemma redact_none_length (msg : Str) : (redact none msg).length = 4 * msg.length + 3 := by
  show (mask ++ maskInter mask msg).length = 4 * msg.length + 3
  rw [List.length_append, maskInter_mask_length]
  have hm : mask.length = 3 := rfl
  omega

lemma redact_none_ne (msg : Str) : redact none msg ≠ msg := by
  intro h
  have h2 := congrArg List.length h
  rw [redact_none_length] at h2
  omega

/- ------------------------------------------------------------------ -/
/- Case folding commutes with whitespace stripping. -/

lemma lowerChar_space (c : Char) : isSpaceB (lowerChar c) = isSpaceB c := by
  unfold lowerChar
  by_cases hA : c = 'A'
  · subst hA; decide
  rw [if_neg hA]
  by_cases hB : c = 'B'
  · subst hB; decide
  rw [if_neg hB]
  by_cases hC : c = 'C'
  · subst hC; decide
  rw [if_neg hC]
  by_cases hD : c = 'D'
  · subst hD; decide
  rw [if_neg hD]
  by_cases hE : c = 'E'
  · subst hE; decide
  rw [if_neg hE]
  by_cases hF : c = 'F'
  · subst hF; decide
  rw [if_neg hF]
  by_cases hG : c = 'G'
  · subst hG; decide
  rw [if_neg hG]
  by_cases hH : c = 'H'
  · subst hH; decide
  rw [if_neg hH]
  by_cases hI : c = 'I'
  · subst hI; decide
  rw [if_neg hI]
  by_cases hJ : c = 'J'
  · subst hJ; decide
  rw [if_neg hJ]
  by_cases hK : c = 'K'
  · subst hK; decide
  rw [if_neg hK]
  by_cases hL : c = 'L'
  · subst hL; decide
  rw [if_neg hL]
  by_cases hM : c = 'M'
  · subst hM; decide
  rw [if_neg hM]
  by_cases hN : c = 'N'
  · subst hN; decide
  rw [if_neg hN]
  by_cases hO : c = 'O'
  · subst hO; decide
  rw [if_neg hO]
  by_cases hP : c = 'P'
  · subst hP; decide
  rw [if_neg hP]
  by_cases hQ : c = 'Q'
  · subst hQ; decide
  rw [if_neg hQ]
  by_cases hR : c = 'R'
  · subst hR; decide
  rw [if_neg hR]
  by_cases hS : c = 'S'
  · subst hS; decide
  rw [if_neg hS]
  by_cases hT : c = 'T'
  · subst hT; decide
  rw [if_neg hT]
  by_cases hU : c = 'U'
  · subst hU; decide
  rw [if_neg hU]
  by_cases hV : c = 'V'
  · subst hV; decide
  rw [if_neg hV]
  by_cases hW : c = 'W'
  · subst hW; decide
  rw [if_neg hW]
  by_cases hX : c = 'X'
  · subst hX; decide
  rw [if_neg hX]
  by_cases hY : c = 'Y'
  · subst hY; decide
  rw [if_neg hY]
  by_cases hZ : c = 'Z'
  · subst hZ; decide
  rw [if_neg hZ]

lemma dropWhile_lower (l : Str) :
    List.dropWhile isSpaceB (lower l) = lower (List.dropWhile isSpaceB l) := by
  induction l with
  | nil => rfl
  | cons c t ih =>
    simp only [lower, List.map_cons, List.dropWhile_cons, lowerChar_space]
    cases hc : isSpaceB c with
    | false => simp [lower]
    | true => simpa [lower] using ih

lemma reverse_lower (l : Str) : (lower l).reverse = lower l.reverse := by
  simp [lower, List.map_reverse]

lemma strip_lower (s : Str) : strip (lower s) = lower (strip s) := by
  unfold strip
  rw [dropWhile_lower, reverse_lower, dropWhile_lower, reverse_lower]

/- ------------------------------------------------------------------ -/
/- Normalization facts. -/

lemma normalize_content (t : Str) : (normalize t).content = str "Preview updated." := rfl

lemma normalize_html_ne (t : Str) : (normalize t).html ≠ [] := by
  unfold normalize
  dsimp only
  by_cases h : isSub (str "<html") (lower t) = true
  · rw [if_pos h]
    have hl : lower t ≠ [] := isSub_ne_nil (str "<html") (lower t) (by decide) h
    intro hh
    subst hh
    exact hl rfl
  · rw [if_neg h]
    intro hh
    rcases List.append_eq_nil.mp hh with ⟨h1, _⟩
    rcases List.append_eq_nil.mp h1 with ⟨h2, _⟩
    exact absurd h2 (by decide)

lemma normalize_marker (t : Str) :
    isSub (str "<html") (lower (normalize t).html) = true := by
  unfold normalize
  dsimp only
  by_cases h : isSub (str "<html") (lower t) = true
  · rw [if_pos h]
    exact h
  · rw [if_neg h]
    rw [List.append_assoc]
    rw [show lower (htmlShellPre ++ (t ++ htmlShellPost)) =
          lower htmlShellPre ++ lower (t ++ htmlShellPost) from by simp [lower]]
    exact isSub_append_left _ _ _ (by decide)

/- ------------------------------------------------------------------ -/
/- Shapes of adapter and _do_call outcomes. -/

lemma wrapErr_ok (k : Option Str) (r : Except Str GenResult) (v : GenResult)
    (h : wrapErr k r = .ok v) : r = .ok v := by
  cases r with
  | ok w =>
    simp only [wrapErr] at h
    exact h
  | error e => simp [wrapErr] at h

lemma wrapErr_error (k : Option Str) (r : Except Str GenResult) (em : Str)
    (h : wrapErr k r = .error em) : ∃ raw, em = List.take 200 (redact k raw) := by
  cases r with
  | ok w => simp [wrapErr] at h
  | error e =>
    simp only [wrapErr, Except.error.injEq] at h
    exact ⟨e, h.symm⟩

lemma ollama_ok (prompt : Str) (model base : Option Str) (net : NetResp) (r : GenResult)
    (h : ollama_adapter prompt model base net = .ok r) : ∃ t, r = normalize t := by
  unfold ollama_adapter at h
  by_cases hs : net.status ≠ 200
  · rw [if_pos hs] at h
    simp at h
  · rw [if_neg hs] at h
    cases hg : jGet net.body (str "response") (.str []) with
    | error e => rw [hg] at h; simp at h
    | ok v =>
      rw [hg] at h
      dsimp only at h
      cases ha : asStr v with
      | error e => rw [ha] at h; simp at h
      | ok t =>
        rw [ha] at h
        simp only [Except.ok.injEq] at h
        exact ⟨t, h.symm⟩

lemma openai_ok (ek : Option Str) (prompt : Str) (model ak : Option Str) (net : NetResp)
    (r : GenResult) (h : (openai_adapter ek prompt model ak net).2 = .ok r) :
    ∃ t, r = normalize t := by
  unfold openai_adapter at h
  by_cases hk : truthy (pyOrOO ak ek) = false
  · rw [if_pos hk] at h
    simp at h
  · rw [if_neg hk] at h
    dsimp only at h
    by_cases hs : net.status ≠ 200
    · rw [if_pos hs] at h
      simp at h
    · rw [if_neg hs] at h
      cases hg : extractContent net.body with
      | error e => rw [hg] at h; simp at h
      | ok v =>
        rw [hg] at h
        dsimp only at h
        cases ha : asStr (pyOrEmpty v) with
        | error e => rw [ha] at h; simp at h
        | ok t =>
          rw [ha] at h
          simp only [Except.ok.injEq] at h
          exact ⟨t, h.symm⟩

lemma do_call_ok (cfg : Config) (provider prompt : Str) (model xbase xkey : Option Str)
    (net : NetResp) (r : GenResult)
    (h : (do_call cfg provider prompt model xbase xkey net).2 = .ok r) :
    ∃ t, r = normalize t := by
  unfold do_call at h
  dsimp only at h
  have h2 := wrapErr_ok _ _ _ h
  by_cases hpv : provider = str "openai"
  · rw [if_pos hpv] at h2
    exact openai_ok _ _ _ _ _ _ h2
  · rw [if_neg hpv] at h2
    dsimp only at h2
    exact ollama_ok _ _ _ _ _ h2

lemma do_call_error (cfg : Config) (provider prompt : Str) (model xbase xkey : Option Str)
    (net : NetResp) (em : Str)
    (h : (do_call cfg provider prompt model xbase xkey net).2 = .error em) :
    ∃ raw, em = List.take 200 (redact cfg.envKey raw) := by
  unfold do_call at h
  dsimp only at h
  exact wrapErr_error _ _ _ h

/- ------------------------------------------------------------------ -/
/- Unfolding the two top-level branches of generate. -/

lemma generate_empty (cfg : Config) (accept : Option Str) (body : GenerateBody)
    (xbase xkey : Option Str) (net : NetResp)
    (hp : (strip body.prompt).isEmpty = true) :
    generate cfg accept body xbase xkey net =
      ⟨.jsonError 400 (str "Missing prompt"), false, false⟩ := by
  simp [generate, hp]

lemma generate_nonempty (cfg : Config) (accept : Option Str) (body : GenerateBody)
    (xbase xkey : Option Str) (net : NetResp)
    (hp : (strip body.prompt).isEmpty = false) :
    generate cfg accept body xbase xkey net =
      (if want_sse accept then
        ⟨.stream (sse_stream (do_call cfg (pick_provider cfg.envProvider body.provider)
            (strip body.prompt) (pyModel body.model) xbase xkey net).2), true,
          (do_call cfg (pick_provider cfg.envProvider body.provider)
            (strip body.prompt) (pyModel body.model) xbase xkey net).1⟩
      else
        match (do_call cfg (pick_provider cfg.envProvider body.provider)
            (strip body.prompt) (pyModel body.model) xbase xkey net).2 with
        | .ok r => ⟨.jsonOk 200 r, true,
            (do_call cfg (pick_provider cfg.envProvider body.provider)
              (strip body.prompt) (pyModel body.model) xbase xkey net).1⟩
        | .error m => ⟨.jsonError 500 m, true,
            (do_call cfg (pick_provider cfg.envProvider body.provider)
              (strip body.prompt) (pyModel body.model) xbase xkey net).1⟩) := by
  simp [generate, hp]

/- Every adapter-failure message that generate surfaces is the redaction of
some raw error, truncated to 200 characters. -/
lemma surfaced_shape (cfg : Config) (accept : Option Str) (body : GenerateBody)
    (xbase xkey : Option Str) (net : NetResp) (m : Str)
    (hm : m ∈ surfacedAdapterErrors (generate cfg accept body xbase xkey net)) :
    ∃ raw, m = List.take 200 (redact cfg.envKey raw) := by
  by_cases hp : (strip body.prompt).isEmpty = true
  · rw [generate_empty cfg accept body xbase xkey net hp] at hm
    simp [surfacedAdapterErrors] at hm
  · have hp2 : (strip body.prompt).isEmpty = false := by
      cases hx : (strip body.prompt).isEmpty
      · rfl
      · exact absurd hx hp
    rw [generate_nonempty cfg accept body xbase xkey net hp2] at hm
    by_cases hw : want_sse accept = true
    · rw [if_pos hw] at hm
      simp only [surfacedAdapterErrors] at hm
      cases hdc : (do_call cfg (pick_provider cfg.envProvider body.provider)
          (strip body.prompt) (pyModel body.model) xbase xkey net).2 with
      | ok r =>
        rw [hdc] at hm
        simp [sse_stream] at hm
      | error e =>
        rw [hdc] at hm
        simp [sse_stream] at hm
        subst hm
        exact do_call_error _ _ _ _ _ _ _ _ hdc
    · rw [if_neg hw] at hm
      cases hdc : (do_call cfg (pick_provider cfg.envProvider body.provider)
          (strip body.prompt) (pyModel body.model) xbase xkey net).2 with
      | ok r =>
        rw [hdc] at hm
        simp [surfacedAdapterErrors] at hm
      | error e =>
        rw [hdc] at hm
        simp [surfacedAdapterErrors] at hm
        subst hm
        exact do_call_error _ _ _ _ _ _ _ _ hdc

/- ================================================================== -/
/- Claim theorems. -/

/-- C1 (amended): for every message, when a non-empty credential that does
not contain the mask character is configured, redact returns a string with
zero occurrences of the credential; when no credential is configured, redact
is not the identity: it interleaves the mask with the message, producing a
string of length 4n+3 for an n-character message. -/
theorem redact_claims (key msg : Str) :
    (key ≠ [] → '*' ∉ key → isSub key (redact (some key) msg) = false)
    ∧ (redact none msg).length = 4 * msg.length + 3
    ∧ redact none msg ≠ msg :=
  ⟨fun h1 h2 => redact_no_occur key msg h1 h2, redact_none_length msg, redact_none_ne msg⟩

/-- C1 witness: the amended claim at concrete inputs. -/
theorem redact_claims_witness :
    isSub (str "ab") (redact (some (str "ab")) (str "xaby")) = false
    ∧ (redact none (str "xy")).length = 4 * (str "xy").length + 3
    ∧ redact none (str "xy") ≠ str "xy" :=
  ⟨(redact_claims (str "ab") (str "xaby")).1 (by decide) (by decide),
   (redact_claims (str "ab") (str "xy")).2.1,
   (redact_claims (str "ab") (str "xy")).2.2⟩

/-- C1 counterexample: with no credential configured, redact is not the
identity on "ab"; and with credential "**" configured, redacting "***"
yields "****", which still contains the credential. -/
theorem redact_claim_cex :
    redact none (str "ab") ≠ str "ab"
    ∧ isSub (str "**") (redact (some (str "**")) (str "***")) = true := by
  exact ⟨by decide, by decide⟩

/-- C2 (amended): the selector returns the hosted id iff the effective
provider value - the request value when set and non-empty, else the
configured default, else "ollama" - normalizes (lower-cased, trimmed) to
"openai"; with no configured default provider, an unset request field yields
the local-model id. -/
theorem pick_provider_claims (envP req : Option Str) :
    (pick_provider envP req = str "openai" ↔
      lower (strip (pyOrOS req (envP.getD (str "ollama")))) = str "openai")
    ∧ (envP = none → req = none → pick_provider envP req = str "ollama") := by
  constructor
  · rw [← strip_lower]
    by_cases h : strip (lower (pyOrOS req (envP.getD (str "ollama")))) = str "openai"
    · have hpick : pick_provider envP req = str "openai" := by
        simp [pick_provider, h]
      rw [hpick]
      simp [h]
    · have hpick : pick_provider envP req = str "ollama" := by
        simp [pick_provider, h]
      rw [hpick]
      constructor
      · intro hcon
        exact absurd hcon (by decide)
      · intro hcon
        exact absurd hcon h
  · intro he hr
    subst he
    subst hr
    decide

/-- C2 witness: with no configured default provider and the request provider
unset, the selector returns the local-model id. -/
theorem pick_provider_claims_witness : pick_provider none none = str "ollama" :=
  (pick_provider_claims none none).2 rfl rfl

/-- C2 counterexample: with the default provider configured to "openai" and
the request provider field unset, the selector returns the hosted id, not the
local-model id as the claim states. -/
theorem pick_provider_cex :
    pick_provider (some (str "openai")) none ≠ str "ollama"
    ∧ pick_provider (some (str "openai")) none = str "openai" := by
  exact ⟨by decide, by decide⟩

/-- C3: the SSE stream is always exactly one chunk event followed by exactly
one terminal event - done on adapter success, error on failure - and the
terminal event is never a chunk; every stream that generate returns has this
two-event shape starting with the chunk event. -/
theorem sse_claims :
    (∀ res : Except Str GenResult,
        sse_stream res = [⟨str "chunk", SsePayload.status⟩, terminalEvent res])
    ∧ (∀ res : Except Str GenResult, (terminalEvent res).name ≠ str "chunk")
    ∧ (∀ r : GenResult, (terminalEvent (.ok r)).name = str "done")
    ∧ (∀ e : Str, (terminalEvent (.error e)).name = str "error")
    ∧ (∀ (cfg : Config) (accept : Option Str) (body : GenerateBody) (xbase xkey : Option Str)
        (net : NetResp) (evs : List SseEvent),
        (generate cfg accept body xbase xkey net).resp = .stream evs →
        evs.length = 2 ∧ evs.head? = some ⟨str "chunk", SsePayload.status⟩) := by
  refine ⟨?_, ?_, ?_, ?_, ?_⟩
  · intro res
    cases res <;> rfl
  · intro res
    cases res with
    | ok r => exact (by decide : str "done" ≠ str "chunk")
    | error e => exact (by decide : str "error" ≠ str "chunk")
  · intro r
    rfl
  · intro e
    rfl
  · intro cfg accept body xbase xkey net evs h
    by_cases hp : (strip body.prompt).isEmpty = true
    · rw [generate_empty cfg accept body xbase xkey net hp] at h
      simp at h
    · have hp2 : (strip body.prompt).isEmpty = false := by
        cases hx : (strip body.prompt).isEmpty
        · rfl
        · exact absurd hx hp
      rw [generate_nonempty cfg accept body xbase xkey net hp2] at h
      by_cases hw : want_sse accept = true
      · rw [if_pos hw] at h
        dsimp only at h
        injection h with h3
        subst h3
        cases (do_call cfg (pick_provider cfg.envProvider body.provider)
            (strip body.prompt) (pyModel body.model) xbase xkey net).2 <;>
          exact ⟨rfl, rfl⟩
      · rw [if_neg hw] at h
        cases hdc : (do_call cfg (pick_provider cfg.envProvider body.provider)
            (strip body.prompt) (pyModel body.model) xbase xkey net).2 with
        | ok r =>
          rw [hdc] at h
          simp at h
        | error e =>
          rw [hdc] at h
          simp at h

/-- C3 witness: a concrete streaming request produces the two-event shape. -/
theorem sse_claims_witness :
    (sse_stream (Except.ok (normalize (str "<html>hi</html>")))).length = 2
    ∧ (sse_stream (Except.ok (normalize (str "<html>hi</html>")))).head?
        = some ⟨str "chunk", SsePayload.status⟩ :=
  sse_claims.2.2.2.2 ⟨none, none⟩ (some (str "text/event-stream")) ⟨str "hi", none, none⟩
    none none ⟨200, [], Json.obj [(str "response", Json.str (str "<html>hi</html>"))]⟩
    (sse_stream (Except.ok (normalize (str "<html>hi</html>")))) rfl

/-- C4 (amended): every adapter-failure message surfaced to the client - the
buffered 500 error field or an SSE error event - is redact-then-truncate of
the raw error, so it is at most 200 characters, and when the configured
credential is non-empty and contains no mask character the message contains
zero occurrences of the credential. -/
theorem generate_error_surfacing (cfg : Config) (accept : Option Str) (body : GenerateBody)
    (xbase xkey : Option Str) (net : NetResp) (m key : Str)
    (hkey : cfg.envKey = some key) (h1 : key ≠ []) (h2 : '*' ∉ key)
    (hm : m ∈ surfacedAdapterErrors (generate cfg accept body xbase xkey net)) :
    m.length ≤ 200 ∧ isSub key m = false := by
  rcases surfaced_shape cfg accept body xbase xkey net m hm with ⟨raw, hraw⟩
  subst hraw
  constructor
  · rw [List.length_take]
    exact Nat.min_le_left _ _
  · rw [hkey]
    exact take_redact_no_occur key raw h1 h2

/-- C4 witness: a backend 500 whose body contains the configured credential
"sk" surfaces a short message with the credential masked. -/
theorem generate_error_surfacing_witness :
    (str "OpenAI error: boom *** boom").length ≤ 200
    ∧ isSub (str "sk") (str "OpenAI error: boom *** boom") = false :=
  generate_error_surfacing ⟨none, some (str "sk")⟩ none ⟨str "x", some (str "openai"), none⟩
    none none ⟨500, str "boom sk boom", Json.null⟩ (str "OpenAI error: boom *** boom")
    (str "sk") rfl (by decide) (by decide) (by decide)

/-- C4 counterexample: with credential "**" configured, a backend 500 with
body "***" surfaces the buffered error "OpenAI error: ****", which still
contains the credential, contradicting the zero-occurrence claim. -/
theorem generate_error_cex :
    (generate ⟨none, some (str "**")⟩ none ⟨str "x", some (str "openai"), none⟩ none none
        ⟨500, str "***", Json.null⟩).resp
      = .jsonError 500 (str "OpenAI error: ****")
    ∧ isSub (str "**") (str "OpenAI error: ****") = true := by
  exact ⟨rfl, by decide⟩

/-- C5: with no credential configured and none supplied via the override, a
request routed to the hosted adapter fails without a network call and the
buffered response is a 500 whose error field is the redacted, truncated
missing-credential message; because redaction with an unset credential
interleaves the mask, that surfaced message no longer contains the text
"Missing" of the adapter message "Missing OpenAI API key". -/
theorem missing_key_eval :
    (generate ⟨none, none⟩ none ⟨str "x", some (str "openai"), none⟩ none none
        ⟨200, [], Json.null⟩).resp
      = .jsonError 500 (List.take 200 (redact none (str "Missing OpenAI API key")))
    ∧ (generate ⟨none, none⟩ none ⟨str "x", some (str "openai"), none⟩ none none
        ⟨200, [], Json.null⟩).networkCalled = false
    ∧ isSub (str "Missing") (List.take 200 (redact none (str "Missing OpenAI API key"))) = false := by
  exact ⟨rfl, rfl, by decide⟩

/-- C6: a prompt that is empty after trimming yields the buffered 400
response with body error "Missing prompt"; the adapter is not invoked and no
network call is made. -/
theorem empty_prompt_validation (cfg : Config) (accept : Option Str) (body : GenerateBody)
    (xbase xkey : Option Str) (net : NetResp) (hp : strip body.prompt = []) :
    generate cfg accept body xbase xkey net =
      ⟨.jsonError 400 (str "Missing prompt"), false, false⟩ :=
  generate_empty cfg accept body xbase xkey net (by rw [hp]; rfl)

/-- C6 witness: a whitespace-only prompt at concrete inputs. -/
theorem empty_prompt_validation_witness :
    generate ⟨none, none⟩ none ⟨str "  ", none, none⟩ none none ⟨200, [], Json.null⟩ =
      ⟨.jsonError 400 (str "Missing prompt"), false, false⟩ :=
  empty_prompt_validation ⟨none, none⟩ none ⟨str "  ", none, none⟩ none none
    ⟨200, [], Json.null⟩ (by decide)

/-- C7 (amended): extraction of the first completion content never errors
when fields along the choices-message-content path are missing - an absent
"choices", an absent "message" or an absent "content" each fall back to a
default ending in the empty string - but when "choices" is present and an
empty array, indexing [0] raises an IndexError instead of yielding the empty
string. -/
theorem extract_content_claims :
    (∀ fs : List (Str × Json), List.lookup (str "choices") fs = none →
        extractContent (Json.obj fs) = .ok (Json.str []))
    ∧ (∀ cfs : List (Str × Json), List.lookup (str "message") cfs = none →
        extractContent (Json.obj [(str "choices", Json.arr [Json.obj cfs])]) = .ok (Json.str []))
    ∧ (∀ mfs : List (Str × Json),
        extractContent
            (Json.obj [(str "choices", Json.arr [Json.obj [(str "message", Json.obj mfs)]])])
          = .ok ((List.lookup (str "content") mfs).getD (Json.str [])))
    ∧ (∀ fs : List (Str × Json), List.lookup (str "choices") fs = some (Json.arr []) →
        extractContent (Json.obj fs) = .error (str "list index out of range")) := by
  refine ⟨?_, ?_, ?_, ?_⟩
  · intro fs h
    unfold extractContent
    simp only [jGet]
    rw [h]
    rfl
  · intro cfs h
    show jGet ((List.lookup (str "message") cfs).getD (Json.obj [])) (str "content") (Json.str [])
      = Except.ok (Json.str [])
    rw [h]
    rfl
  · intro mfs
    rfl
  · intro fs h
    unfold extractContent
    simp only [jGet]
    rw [h]
    rfl

/-- C7 witness: a body with no "choices" field extracts the empty string. -/
theorem extract_content_claims_witness :
    extractContent (Json.obj []) = .ok (Json.str []) :=
  extract_content_claims.1 [] rfl

/-- C7 counterexample: a successful body whose "choices" field is an empty
array makes extraction raise an IndexError rather than yield the empty
string. -/
theorem extract_content_cex :
    extractContent (Json.obj [(str "choices", Json.arr [])])
      = .error (str "list index out of range") := rfl

/-- C8: for every input the normalizer produces the fixed content text
"Preview updated." and a non-empty html that contains the HTML root marker
(the complete-document heuristic of the source); every successful buffered
response carries such a result. -/
theorem result_shape_claims :
    (∀ t : Str, (normalize t).content = str "Preview updated."
        ∧ (normalize t).html ≠ []
        ∧ isSub (str "<html") (lower (normalize t).html) = true)
    ∧ (∀ (cfg : Config) (accept : Option Str) (body : GenerateBody) (xbase xkey : Option Str)
        (net : NetResp) (s : Nat) (r : GenResult),
        (generate cfg accept body xbase xkey net).resp = .jsonOk s r →
        r.content = str "Preview updated." ∧ r.html ≠ []) := by
  constructor
  · intro t
    exact ⟨normalize_content t, normalize_html_ne t, normalize_marker t⟩
  · intro cfg accept body xbase xkey net s r h
    by_cases hp : (strip body.prompt).isEmpty = true
    · rw [generate_empty cfg accept body xbase xkey net hp] at h
      simp at h
    · have hp2 : (strip body.prompt).isEmpty = false := by
        cases hx : (strip body.prompt).isEmpty
        · rfl
        · exact absurd hx hp
      rw [generate_nonempty cfg accept body xbase xkey net hp2] at h
      by_cases hw : want_sse accept = true
      · rw [if_pos hw] at h
        simp at h
      · rw [if_neg hw] at h
        cases hdc : (do_call cfg (pick_provider cfg.envProvider body.provider)
            (strip body.prompt) (pyModel body.model) xbase xkey net).2 with
        | ok r2 =>
          rw [hdc] at h
          dsimp only at h
          injection h with h1 h2
          subst h2
          rcases do_call_ok cfg _ _ _ _ _ _ _ hdc with ⟨t, ht⟩
          rw [ht]
          exact ⟨normalize_content t, normalize_html_ne t⟩
        | error e =>
          rw [hdc] at h
          simp at h

/-- C8 witness: a concrete successful buffered response. -/
theorem result_shape_claims_witness :
    (normalize (str "<html>hi</html>")).content = str "Preview updated."
    ∧ (normalize (str "<html>hi</html>")).html ≠ [] :=
  result_shape_claims.2 ⟨none, none⟩ none ⟨str "hi", none, none⟩ none none
    ⟨200, [], Json.obj [(str "response", Json.str (str "<html>hi</html>"))]⟩ 200
    (normalize (str "<html>hi</html>")) rfl

/-- C9: on input that already contains the HTML root marker the normalizer
uses the input verbatim as html, and is therefore idempotent there. -/
theorem normalize_idem_claim (x : Str) (h : isSub (str "<html") (lower x) = true) :
    (normalize x).html = x ∧ normalize ((normalize x).html) = normalize x := by
  have hx : (normalize x).html = x := by
    unfold normalize
    dsimp only
    rw [if_pos h]
  exact ⟨hx, by rw [hx]⟩

/-- C9 witness: idempotence at a concrete complete-HTML input. -/
theorem normalize_idem_claim_witness :
    (normalize (str "<html></html>")).html = str "<html></html>"
    ∧ normalize ((normalize (str "<html></html>")).html) = normalize (str "<html></html>") :=
  normalize_idem_claim (str "<html></html>") (by decide)

/-- C10: when the Accept header selects SSE but the trimmed prompt is empty,
generate still returns the buffered 400 "Missing prompt" response: no SSE
stream is opened, no event is emitted and the adapter is not invoked -
validation runs strictly before delivery-mode selection. -/
theorem empty_prompt_sse (cfg : Config) (accept : Option Str) (body : GenerateBody)
    (xbase xkey : Option Str) (net : NetResp)
    (hsse : want_sse accept = true) (hp : strip body.prompt = []) :
    (generate cfg accept body xbase xkey net).resp = .jsonError 400 (str "Missing prompt")
    ∧ isStream (generate cfg accept body xbase xkey net).resp = false
    ∧ (generate cfg accept body xbase xkey net).adapterInvoked = false := by
  rw [generate_empty cfg accept body xbase xkey net (by rw [hp]; rfl)]
  exact ⟨rfl, rfl, rfl⟩

/-- C10 witness: an SSE request with a whitespace prompt at concrete inputs. -/
theorem empty_prompt_sse_witness :
    (generate ⟨none, none⟩ (some (str "text/event-stream")) ⟨str " ", none, none⟩ none none
        ⟨200, [], Json.null⟩).resp = .jsonError 400 (str "Missing prompt")
    ∧ isStream (generate ⟨none, none⟩ (some (str "text/event-stream")) ⟨str " ", none, none⟩
        none none ⟨200, [], Json.null⟩).resp = false
    ∧ (generate ⟨none, none⟩ (some (str "text/event-stream")) ⟨str " ", none, none⟩ none none
        ⟨200, [], Json.null⟩).adapterInvoked = false :=
  empty_prompt_sse ⟨none, none⟩ (some (str "text/event-stream")) ⟨str " ", none, none⟩ none none
    ⟨200, [], Json.null⟩ (by decide) (by decide)

end CodeGen
